import Mathlib

/-!
Shallow embedding of the Trade recommendation engine (src/Trade.py).

Decimal quantities from the Python source are modelled as exact rationals
(ℚ).  Python's `round(x, 2)` is modelled by `round2`, rounding `x * 100` to
the nearest integer and dividing by `100`; Python rounds exact half-cent
ties to even while Mathlib's `round` rounds them up, and no input considered
below sits on such a tie.  Fallible dictionary lookups (Python raising
`KeyError` on an unknown volatility label) are modelled with `Option`.  The
process-wide random source of the history generator is modelled by an
explicit stream `rands : ℕ → ℚ` of draws in `[0, 1)` (the value of each
`np.random.random()` call), and `datetime.now()` by an explicit integer day
number `today`, with dates represented as integer day offsets.
-/

namespace Trade

/-- `round(x, 2)` from the source: round to two decimal places. -/
def round2 (x : ℚ) : ℚ := ((round (x * 100) : ℤ) : ℚ) / 100

/-- A row of the stock table (the per-stock fields used by the engine). -/
structure StockRecord where
  symbol : String
  sname : String
  current_price : ℚ
  pe : ℚ
  market_cap : ℚ
  growth : ℚ
  volatility : String
deriving DecidableEq

/-- The P/E component of `calculate_feasibility_score` (line 58 of the
source): `20 if pe < 30 else 15 if pe < 40 else 10 if pe < 50 else 5`. -/
def pe_score (pe : ℚ) : ℚ :=
  if pe < 30 then 20 else if pe < 40 then 15 else if pe < 50 then 10 else 5

/-- The `volatility_scores` dictionary of `calculate_feasibility_score`;
lookup of an unknown key is `none` (Python raises `KeyError`). -/
def volatility_scores (v : String) : Option ℚ :=
  if v = "Very Low" then some 20
  else if v = "Low" then some 15
  else if v = "Medium" then some 10
  else if v = "High" then some 5
  else if v = "Very High" then some 0
  else none

/-- `calculate_feasibility_score(stock)`: pe score plus `growth * 3` plus
the volatility score; fails when the volatility label is unknown. -/
def calculate_feasibility_score (stock : StockRecord) : Option ℚ :=
  (volatility_scores stock.volatility).map (fun volatility_score =>
    pe_score stock.pe + stock.growth * 3 + volatility_score)

/-- `calculate_investment_amount(total_funds, score, max_percentage)`. -/
def calculate_investment_amount (total_funds score max_percentage : ℚ) : ℚ :=
  let percentage_to_invest := min (score / 100 * max_percentage) max_percentage
  round2 (total_funds * percentage_to_invest / 100)

/-- `recommend_holding_period(volatility, growth)`: a total function on
arbitrary strings; anything not `Very High`/`High`/`Medium` falls through
to the final return. -/
def recommend_holding_period (volatility : String) (growth : ℚ) : String :=
  if volatility = "Very High" then "Short-term (1-3 months)"
  else if volatility = "High" then
    (if growth > 15 then "Medium-term (3-6 months)" else "Short-term (1-3 months)")
  else if volatility = "Medium" then
    (if growth > 10 then "Medium-term (3-6 months)" else "Long-term (6-12 months)")
  else "Long-term (6-12+ months)"

/-- The `stop_loss_percentage` dictionary of `calculate_stop_loss`. -/
def stop_loss_percentage (v : String) : Option ℚ :=
  if v = "Very Low" then some 5
  else if v = "Low" then some 7
  else if v = "Medium" then some 10
  else if v = "High" then some 15
  else if v = "Very High" then some 20
  else none

/-- `calculate_stop_loss(current_price, volatility)`: price at the looked-up
percentage below current price, rounded to two decimals; fails when the
volatility label is unknown. -/
def calculate_stop_loss (current_price : ℚ) (volatility : String) : Option ℚ :=
  (stop_loss_percentage volatility).map (fun p =>
    round2 (current_price * (1 - p / 100)))

/-- One output row of the per-stock loop in `main` (lines 113-127). -/
structure RecommendationRecord where
  symbol : String
  sname : String
  current_price : ℚ
  pe : ℚ
  market_cap : ℚ
  growth : ℚ
  volatility : String
  score : ℚ
  recommended_amount : ℚ
  hold_period : String
  stop_loss : ℚ
deriving DecidableEq

/-- The per-stock body of the loop in `main`: computes the score and all
derived fields for one stock; fails exactly where a dictionary lookup in
the called functions fails.  `max_percentage` is left at its default 10. -/
def recommend (stock : StockRecord) (available_funds : ℚ) :
    Option RecommendationRecord :=
  (calculate_feasibility_score stock).bind (fun score =>
    (calculate_stop_loss stock.current_price stock.volatility).map (fun sl =>
      ⟨stock.symbol, stock.sname, stock.current_price, stock.pe,
       stock.market_cap, stock.growth, stock.volatility, score,
       calculate_investment_amount available_funds score 10,
       recommend_holding_period stock.volatility stock.growth, sl⟩))

/-- The `vol_factor` dictionary of `generate_historical_data`. -/
def vol_factor (v : String) : Option ℚ :=
  if v = "Very Low" then some 0.4
  else if v = "Low" then some 0.7
  else if v = "Medium" then some 1.0
  else if v = "High" then some 1.4
  else if v = "Very High" then some 1.8
  else none

/-- `change = (np.random.random() - 0.5) * 2 * vol_factor` for one draw
`r` of the random stream. -/
def priceChange (vf r : ℚ) : ℚ := (r - 0.5) * 2 * vf

/-- The running (unrounded) price after `n` loop iterations of
`generate_historical_data`, starting from `start_price` and consuming the
first `n` draws of the stream: `price = price * (1 + change / 100)`. -/
def running_price (start_price vf : ℚ) (rands : ℕ → ℚ) : ℕ → ℚ
  | 0 => start_price
  | n + 1 => running_price start_price vf rands n
      * (1 + priceChange vf (rands n) / 100)

/-- `generate_historical_data(start_price, volatility, days)`.  The loop
`for i in range(days, -1, -1)` runs `days + 1` times when `days ≥ 0` and
zero times when `days < 0`; iteration `j` (0-based) has `i = days - j`,
emits date `now - i` (modelled as the integer `today - (days - j)`) and the
running price rounded to two decimals.  The factor lookup precedes the
loop, so an unknown label fails for every `days`. -/
def generate_historical_data (start_price : ℚ) (volatility : String)
    (days today : ℤ) (rands : ℕ → ℚ) : Option (List (ℤ × ℚ)) :=
  (vol_factor volatility).map (fun vf =>
    (List.range (days + 1).toNat).map (fun (j : ℕ) =>
      (today - (days - (j : ℤ)),
       round2 (running_price start_price vf rands (j + 1)))))

/-- A constant random stream, used to instantiate theorems about the
generator at concrete inputs. -/
def halfRand : ℕ → ℚ := fun _ => 1 / 2

/-! ### Helper lemmas -/

/-- Evaluation rule for `round2` at an input whose rounded value is the
integer `n` of hundredths. -/
theorem round2_eval (x : ℚ) (n : ℤ) (h1 : (n : ℚ) ≤ x * 100 + 1 / 2)
    (h2 : x * 100 + 1 / 2 < (n : ℚ) + 1) : round2 x = (n : ℚ) / 100 := by
  unfold round2
  have hr : round (x * 100) = n := by
    rw [round_eq, Int.floor_eq_iff]
    exact ⟨h1, h2⟩
  rw [hr]

/-! ### Claims -/

/-- Claim C1: for every stock whose volatility label is recognized by the
score lookup, the feasibility score equals
`pe_score pe + growth * 3 + volatilityScore`, where the lookup is the fixed
table Very Low 20, Low 15, Medium 10, High 5, Very High 0, and no clamping
is applied to the sum; concretely, pe 62.1, growth 30.2, volatility High
gives 100.6, which exceeds 100. -/
theorem C1_feasibility_score_formula (stock : StockRecord) (vs : ℚ)
    (h : volatility_scores stock.volatility = some vs) :
    calculate_feasibility_score stock
        = some (pe_score stock.pe + stock.growth * 3 + vs)
    ∧ volatility_scores "Very Low" = some 20
    ∧ volatility_scores "Low" = some 15
    ∧ volatility_scores "Medium" = some 10
    ∧ volatility_scores "High" = some 5
    ∧ volatility_scores "Very High" = some 0
    ∧ calculate_feasibility_score
        ⟨"NVDA", "NVIDIA Corp.", 860.26, 62.1, 2120, 30.2, "High"⟩ = some 100.6
    ∧ (100 : ℚ) < 100.6 := by
  refine ⟨?_, rfl, rfl, rfl, rfl, rfl, ?_, by norm_num⟩
  · simp only [calculate_feasibility_score, h, Option.map_some']
  · have h5 : volatility_scores "High" = some 5 := rfl
    simp only [calculate_feasibility_score, h5, Option.map_some']
    norm_num [pe_score]

/-- Witness for C1 at the sample stock AAPL (volatility Medium, score 10). -/
theorem C1_feasibility_score_formula_witness :
    calculate_feasibility_score
        ⟨"AAPL", "Apple Inc.", 178.72, 29.4, 2760, 8.1, "Medium"⟩
      = some (pe_score 29.4 + 8.1 * 3 + 10) :=
  (C1_feasibility_score_formula
    ⟨"AAPL", "Apple Inc.", 178.72, 29.4, 2760, 8.1, "Medium"⟩ 10 rfl).1

/-- Claim C2: for every `total_funds`, `score` and `max_percentage`, the
recommended allocation is
`round2 (total_funds * min (score / 100 * max_percentage) max_percentage / 100)`;
concretely, funds 10000, score 100.6, percentage 10 gives 1000 (the `min`
clamp engages above score 100). -/
theorem C2_investment_amount_formula (total_funds score max_percentage : ℚ) :
    calculate_investment_amount total_funds score max_percentage
        = round2 (total_funds * min (score / 100 * max_percentage) max_percentage / 100)
    ∧ calculate_investment_amount 10000 100.6 10 = 1000 := by
  refine ⟨rfl, ?_⟩
  show round2 (10000 * min ((100.6 : ℚ) / 100 * 10) 10 / 100) = 1000
  have harg : (10000 : ℚ) * min ((100.6 : ℚ) / 100 * 10) 10 / 100 = 1000 := by
    rw [min_def]; norm_num
  rw [harg]
  exact (round2_eval 1000 100000 (by norm_num) (by norm_num)).trans (by norm_num)

/-- Claim C5: `pe_score` is the piecewise step function 20 / 15 / 10 / 5
with half-open boundaries at 30, 40, 50 (so pe = 30 scores 15, not 20),
and it is monotonically non-increasing. -/
theorem C5_pe_score_steps (pe pe1 pe2 : ℚ) (hle : pe1 ≤ pe2) :
    (pe < 30 → pe_score pe = 20)
    ∧ (30 ≤ pe → pe < 40 → pe_score pe = 15)
    ∧ (40 ≤ pe → pe < 50 → pe_score pe = 10)
    ∧ (50 ≤ pe → pe_score pe = 5)
    ∧ pe_score 30 = 15
    ∧ pe_score pe2 ≤ pe_score pe1 := by
  refine ⟨?_, ?_, ?_, ?_, by norm_num [pe_score], ?_⟩
  · intro h; unfold pe_score; rw [if_pos h]
  · intro h1 h2; unfold pe_score; rw [if_neg (by linarith), if_pos h2]
  · intro h1 h2; unfold pe_score
    rw [if_neg (by linarith), if_neg (by linarith), if_pos h2]
  · intro h; unfold pe_score
    rw [if_neg (by linarith), if_neg (by linarith), if_neg (by linarith)]
  · unfold pe_score
    split_ifs <;> norm_num <;> linarith

/-- Witness for C5: pe 25 scores at least pe 40. -/
theorem C5_pe_score_steps_witness : pe_score 40 ≤ pe_score 25 :=
  (C5_pe_score_steps 0 25 40 (by norm_num)).2.2.2.2.2

/-- Claim C6: the holding-period decision table: Very High is short-term
unconditionally; High is medium-term iff growth > 15 else short-term;
Medium is medium-term iff growth > 10 else long-term (6-12 months); Low
and Very Low are long-term (6-12+ months) unconditionally; concretely
Medium with growth 9.8 is long-term (6-12 months). -/
theorem C6_holding_period_table (growth : ℚ) :
    recommend_holding_period "Very High" growth = "Short-term (1-3 months)"
    ∧ (growth > 15 →
        recommend_holding_period "High" growth = "Medium-term (3-6 months)")
    ∧ (¬ growth > 15 →
        recommend_holding_period "High" growth = "Short-term (1-3 months)")
    ∧ (growth > 10 →
        recommend_holding_period "Medium" growth = "Medium-term (3-6 months)")
    ∧ (¬ growth > 10 →
        recommend_holding_period "Medium" growth = "Long-term (6-12 months)")
    ∧ recommend_holding_period "Low" growth = "Long-term (6-12+ months)"
    ∧ recommend_holding_period "Very Low" growth = "Long-term (6-12+ months)"
    ∧ recommend_holding_period "Medium" 9.8 = "Long-term (6-12 months)" := by
  refine ⟨rfl, ?_, ?_, ?_, ?_, rfl, rfl, ?_⟩
  · intro h; simp only [recommend_holding_period, if_true]
    rw [if_neg (by decide), if_pos h]
  · intro h; simp only [recommend_holding_period, if_true]
    rw [if_neg (by decide), if_neg h]
  · intro h; simp only [recommend_holding_period, if_true]
    rw [if_neg (by decide), if_neg (by decide), if_pos h]
  · intro h; simp only [recommend_holding_period, if_true]
    rw [if_neg (by decide), if_neg (by decide), if_neg h]
  · simp only [recommend_holding_period, if_true]
    rw [if_neg (by decide), if_neg (by decide), if_neg (by norm_num)]

/-- Witness for C6 at volatility High with growth 20. -/
theorem C6_holding_period_table_witness :
    recommend_holding_period "High" 20 = "Medium-term (3-6 months)" :=
  (C6_holding_period_table 20).2.1 (by norm_num)

/-- Claim C10: the holding-period function is total on arbitrary strings
(it always returns one of the four labels, never failing), and every
volatility other than exactly Very High, High or Medium — including
misspelled labels — falls through to the final long-term label. -/
theorem C10_holding_period_total (volatility : String) (growth : ℚ)
    (h1 : volatility ≠ "Very High") (h2 : volatility ≠ "High")
    (h3 : volatility ≠ "Medium") :
    recommend_holding_period volatility growth = "Long-term (6-12+ months)"
    ∧ ∀ (v : String) (g : ℚ),
        recommend_holding_period v g = "Short-term (1-3 months)"
        ∨ recommend_holding_period v g = "Medium-term (3-6 months)"
        ∨ recommend_holding_period v g = "Long-term (6-12 months)"
        ∨ recommend_holding_period v g = "Long-term (6-12+ months)" := by
  constructor
  · simp only [recommend_holding_period]
    rw [if_neg h1, if_neg h2, if_neg h3]
  · intro v g
    simp only [recommend_holding_period]
    split_ifs <;> simp

/-- Witness for C10 at a misspelled label. -/
theorem C10_holding_period_total_witness :
    recommend_holding_period "Medum" 50 = "Long-term (6-12+ months)" :=
  (C10_holding_period_total "Medum" 50 (by decide) (by decide) (by decide)).1

/-- Counterexample to C3 as stated: a stock with growth -20 (pe 10,
volatility Very High) is accepted by the engine with score -40, and with
funds 10000 the recommended allocation is -400, which is negative. -/
theorem C3_counterexample :
    (recommend ⟨"XXX", "Negative Growth Corp.", 100, 10, 50, -20, "Very High"⟩
        10000).map RecommendationRecord.recommended_amount = some (-400)
    ∧ ((-400 : ℚ) < 0) := by
  refine ⟨?_, by norm_num⟩
  have hv : volatility_scores "Very High" = some 0 := rfl
  have hs : stop_loss_percentage "Very High" = some 20 := rfl
  simp only [recommend, calculate_feasibility_score, calculate_stop_loss, hv, hs,
    Option.map_some', Option.some_bind, Option.some.injEq]
  have hscore : pe_score 10 + (-20 : ℚ) * 3 + 0 = -40 := by norm_num [pe_score]
  rw [hscore]
  show calculate_investment_amount 10000 (-40) 10 = -400
  show round2 (10000 * min ((-40 : ℚ) / 100 * 10) 10 / 100) = -400
  have harg : (10000 : ℚ) * min ((-40 : ℚ) / 100 * 10) 10 / 100 = -400 := by
    rw [min_def]; norm_num
  rw [harg]
  exact (round2_eval (-400) (-40000) (by norm_num) (by norm_num)).trans (by norm_num)

/-- Claim C3 amended: for a non-negative feasibility score, positive funds
and a non-negative maximum percentage whose product with the funds is a
whole number (so the cap is a whole number of hundredths), the allocation
lies between 0 and `total_funds * max_percentage / 100`.  (The claim as
stated fails for negative scores, which produce negative allocations, and
for caps that are not a whole number of hundredths, where the final
rounding can overshoot the cap by up to half a cent.) -/
theorem C3_allocation_bounds (total_funds score max_percentage : ℚ)
    (hs : 0 ≤ score) (hf : 0 < total_funds) (hm : 0 ≤ max_percentage)
    (hn : ∃ n : ℤ, total_funds * max_percentage = (n : ℚ)) :
    0 ≤ calculate_investment_amount total_funds score max_percentage
    ∧ calculate_investment_amount total_funds score max_percentage
        ≤ total_funds * max_percentage / 100 := by
  obtain ⟨n, hn⟩ := hn
  show 0 ≤ round2 (total_funds * min (score / 100 * max_percentage) max_percentage / 100)
    ∧ round2 (total_funds * min (score / 100 * max_percentage) max_percentage / 100)
        ≤ total_funds * max_percentage / 100
  set p := min (score / 100 * max_percentage) max_percentage with hp
  have hp0 : 0 ≤ p := le_min (by positivity) hm
  have hple : p ≤ max_percentage := min_le_right _ _
  have harg : total_funds * p / 100 * 100 = total_funds * p := by ring
  unfold round2
  rw [harg]
  constructor
  · have h0 : (0 : ℤ) ≤ round (total_funds * p) := by
      rw [round_eq]
      apply Int.floor_nonneg.mpr
      have := mul_nonneg hf.le hp0
      linarith
    have h0q : (0 : ℚ) ≤ ((round (total_funds * p) : ℤ) : ℚ) := by exact_mod_cast h0
    positivity
  · have hle2 : total_funds * p ≤ (n : ℚ) := by
      rw [← hn]; exact mul_le_mul_of_nonneg_left hple hf.le
    have hr : round (total_funds * p) ≤ n := by
      rw [round_eq]
      have hmono : ⌊total_funds * p + 1 / 2⌋ ≤ ⌊(n : ℚ) + 1 / 2⌋ :=
        Int.floor_mono (by linarith)
      have hintc : ⌊(n : ℚ) + 1 / 2⌋ = n := by
        rw [add_comm, Int.floor_add_int, Int.floor_eq_zero_iff.mpr
          (by constructor <;> norm_num)]
        ring
      omega
    have hrq : ((round (total_funds * p) : ℤ) : ℚ) ≤ (n : ℚ) := by exact_mod_cast hr
    calc ((round (total_funds * p) : ℤ) : ℚ) / 100 ≤ (n : ℚ) / 100 := by linarith
      _ = total_funds * max_percentage / 100 := by rw [hn]

/-- Witness for C3 amended at funds 10000, score 47.9, percentage 10. -/
theorem C3_allocation_bounds_witness :
    0 ≤ calculate_investment_amount 10000 47.9 10
    ∧ calculate_investment_amount 10000 47.9 10 ≤ 10000 * 10 / 100 :=
  C3_allocation_bounds 10000 47.9 10 (by norm_num) (by norm_num) (by norm_num)
    ⟨100000, by norm_num⟩

/-- Counterexample to C4 as stated: at current price 0.01 (a positive
price) with volatility Very Low, the stop-loss computation rounds
0.01 * 0.95 = 0.0095 back up to 0.01, so the stop-loss price equals the
current price instead of lying strictly below it. -/
theorem C4_counterexample :
    calculate_stop_loss 0.01 "Very Low" = some 0.01
    ∧ ¬ ((0.01 : ℚ) < 0.01) := by
  constructor
  · have hs : stop_loss_percentage "Very Low" = some 5 := rfl
    simp only [calculate_stop_loss, hs, Option.map_some', Option.some.injEq]
    have harg : (0.01 : ℚ) * (1 - 5 / 100) = 19 / 2000 := by norm_num
    rw [harg, round2_eval (19 / 2000) 1 (by norm_num) (by norm_num)]
    norm_num
  · exact lt_irrefl _

/-- Claim C4 amended: for every current price strictly greater than 0.1
and every recognized volatility label, the stop-loss price is
`round2 (current_price * (1 - p / 100))` with `p` from the fixed lookup
Very Low 5, Low 7, Medium 10, High 15, Very High 20, and it is strictly
positive and strictly below the current price even after rounding.  (The
claim as stated fails for tiny positive prices, where two-decimal rounding
can return the current price itself, as at price 0.01; the bound 0.1 is
tight, since price exactly 0.1 with Very Low rounds 0.095 up to 0.1.) -/
theorem C4_stop_loss_bounds (current_price : ℚ) (volatility : String) (p : ℚ)
    (hp : 1 / 10 < current_price)
    (hv : stop_loss_percentage volatility = some p) :
    calculate_stop_loss current_price volatility
        = some (round2 (current_price * (1 - p / 100)))
    ∧ 0 < round2 (current_price * (1 - p / 100))
    ∧ round2 (current_price * (1 - p / 100)) < current_price
    ∧ stop_loss_percentage "Very Low" = some 5
    ∧ stop_loss_percentage "Low" = some 7
    ∧ stop_loss_percentage "Medium" = some 10
    ∧ stop_loss_percentage "High" = some 15
    ∧ stop_loss_percentage "Very High" = some 20 := by
  have hrange : 5 ≤ p ∧ p ≤ 20 := by
    unfold stop_loss_percentage at hv
    split_ifs at hv <;> simp only [Option.some.injEq] at hv <;>
      subst hv <;> norm_num
  obtain ⟨hp5, hp20⟩ := hrange
  have hcp : (0 : ℚ) < current_price := lt_trans (by norm_num) hp
  have habs := abs_sub_round (current_price * (1 - p / 100) * 100)
  rw [abs_le] at habs
  obtain ⟨hlo, hhi⟩ := habs
  have hprod1 : 0 ≤ current_price * (20 - p) :=
    mul_nonneg hcp.le (by linarith)
  have hprod2 : 0 ≤ current_price * (p - 5) :=
    mul_nonneg hcp.le (by linarith)
  refine ⟨by simp only [calculate_stop_loss, hv, Option.map_some'], ?_, ?_,
    rfl, rfl, rfl, rfl, rfl⟩
  · unfold round2
    apply div_pos ?_ (by norm_num)
    have hexp : current_price * (1 - p / 100) * 100
        = 100 * current_price - current_price * p := by ring
    rw [hexp] at hlo hhi ⊢
    nlinarith [hprod1, hp]
  · unfold round2
    rw [div_lt_iff₀ (by norm_num : (0 : ℚ) < 100)]
    have hexp : current_price * (1 - p / 100) * 100
        = 100 * current_price - current_price * p := by ring
    rw [hexp] at hlo hhi ⊢
    nlinarith [hprod2, hp]

/-- Witness for C4 amended at the sample price 178.72 with volatility
Medium. -/
theorem C4_stop_loss_bounds_witness :
    calculate_stop_loss 178.72 "Medium"
        = some (round2 ((178.72 : ℚ) * (1 - 10 / 100)))
    ∧ 0 < round2 ((178.72 : ℚ) * (1 - 10 / 100))
    ∧ round2 ((178.72 : ℚ) * (1 - 10 / 100)) < 178.72
    ∧ stop_loss_percentage "Very Low" = some 5
    ∧ stop_loss_percentage "Low" = some 7
    ∧ stop_loss_percentage "Medium" = some 10
    ∧ stop_loss_percentage "High" = some 15
    ∧ stop_loss_percentage "Very High" = some 20 :=
  C4_stop_loss_bounds 178.72 "Medium" 10 (by norm_num) rfl

/-- Counterexample to C7 as stated: a stock with negative P/E (-5) but a
recognized volatility label is processed successfully — the computation
returns a complete recommendation instead of failing, contradicting the
claim that a negative P/E is rejected. -/
theorem C7_counterexample :
    ((-5 : ℚ) < 0)
    ∧ (recommend ⟨"XXX", "Negative PE Corp.", 100, -5, 50, 10, "Medium"⟩
        1000).isSome = true := by
  refine ⟨by norm_num, ?_⟩
  have hv : volatility_scores "Medium" = some 10 := rfl
  have hs : stop_loss_percentage "Medium" = some 10 := rfl
  simp only [recommend, calculate_feasibility_score, calculate_stop_loss, hv, hs,
    Option.map_some', Option.some_bind, Option.isSome_some]

/-- Claim C7 amended: the recommendation computation fails (with a failed
lookup, and produces no partial result) exactly when the stock's
volatility label is not one of the five recognized labels; a negative P/E,
a negative current price, and non-positive available funds do not cause a
failure — those inputs are processed and simply yield the arithmetic
results of the formulas. -/
theorem C7_failure_iff (stock : StockRecord) (available_funds : ℚ) :
    recommend stock available_funds = none
      ↔ (stock.volatility ≠ "Very Low" ∧ stock.volatility ≠ "Low"
         ∧ stock.volatility ≠ "Medium" ∧ stock.volatility ≠ "High"
         ∧ stock.volatility ≠ "Very High") := by
  simp only [recommend, calculate_feasibility_score, calculate_stop_loss,
    volatility_scores, stop_loss_percentage]
  split_ifs <;> simp_all

/-- Counterexample to C9 as stated: with a recognized label and days = -1
the generator does not fail — it succeeds and returns the empty sequence
(the loop `range(days, -1, -1)` is empty for negative days). -/
theorem C9_counterexample :
    generate_historical_data 100 "Medium" (-1) 0 halfRand = some [] := by
  have hv : vol_factor "Medium" = some 1.0 := rfl
  simp only [generate_historical_data, hv, Option.map_some']
  norm_num

/-- Claim C9 amended: the generator fails exactly when the volatility
label is unrecognized (the factor lookup precedes the loop, so this holds
for every days value); for a recognized label and days < 0 it does not
fail but succeeds with the empty sequence. -/
theorem C9_negative_days (start_price : ℚ) (volatility : String)
    (days today : ℤ) (rands : ℕ → ℚ) :
    (vol_factor volatility = none →
      generate_historical_data start_price volatility days today rands = none)
    ∧ (∀ vf : ℚ, vol_factor volatility = some vf → days < 0 →
      generate_historical_data start_price volatility days today rands
        = some []) := by
  constructor
  · intro h
    simp only [generate_historical_data, h, Option.map_none']
  · intro vf h hd
    simp only [generate_historical_data, h, Option.map_some', Option.some.injEq]
    have hz : (days + 1).toNat = 0 := by omega
    rw [hz]
    simp

/-- Claim C8: for every start price, recognized volatility label (factor
`vf` from the lookup Very Low 0.4, Low 0.7, Medium 1.0, High 1.4,
Very High 1.8) and days ≥ 0, the generator succeeds with exactly days + 1
points, dated oldest first from `today - days` up to `today`; the j-th
emitted price is the running price after j + 1 compounding steps rounded
to two decimals, where the running price starts at the start price and
each step multiplies by `1 + change / 100` with
`change = (r - 0.5) * 2 * vf` for the step's draw `r`; for draws in
[0, 1) the unscaled change `(r - 0.5) * 2` lies in [-1, 1). -/
theorem C8_generate_history (start_price : ℚ) (volatility : String) (vf : ℚ)
    (days today : ℤ) (rands : ℕ → ℚ)
    (hv : vol_factor volatility = some vf) (hd : 0 ≤ days) :
    ∃ l : List (ℤ × ℚ),
      generate_historical_data start_price volatility days today rands = some l
      ∧ (l.length : ℤ) = days + 1
      ∧ (∀ (j : ℕ) (h : j < l.length), (l.get ⟨j, h⟩).1 = today - days + j)
      ∧ (∀ (j : ℕ) (h : j < l.length),
          (l.get ⟨j, h⟩).2 = round2 (running_price start_price vf rands (j + 1)))
      ∧ running_price start_price vf rands 0 = start_price
      ∧ (∀ j : ℕ, running_price start_price vf rands (j + 1)
          = running_price start_price vf rands j
              * (1 + priceChange vf (rands j) / 100))
      ∧ (∀ r : ℚ, 0 ≤ r → r < 1 →
          priceChange vf r = (r - 0.5) * 2 * vf
          ∧ (-1 : ℚ) ≤ (r - 0.5) * 2 ∧ (r - 0.5) * 2 < 1) := by
  refine ⟨(List.range (days + 1).toNat).map (fun (j : ℕ) =>
      (today - (days - (j : ℤ)),
       round2 (running_price start_price vf rands (j + 1)))),
    by simp only [generate_historical_data, hv, Option.map_some'],
    ?_, ?_, ?_, rfl, fun j => rfl, ?_⟩
  · simp only [List.length_map, List.length_range]
    omega
  · intro j h
    simp only [List.get_eq_getElem, List.getElem_map, List.getElem_range]
    omega
  · intro j h
    simp only [List.get_eq_getElem, List.getElem_map, List.getElem_range]
  · intro r h0 h1
    exact ⟨rfl, by linarith, by linarith⟩

/-- Witness for C8 at start price 100, volatility Medium, days 1, today 0
and the constant half stream (so every change is 0). -/
theorem C8_generate_history_witness :
    ∃ l : List (ℤ × ℚ),
      generate_historical_data 100 "Medium" 1 0 halfRand = some l
      ∧ (l.length : ℤ) = 1 + 1
      ∧ (∀ (j : ℕ) (h : j < l.length), (l.get ⟨j, h⟩).1 = 0 - 1 + j)
      ∧ (∀ (j : ℕ) (h : j < l.length),
          (l.get ⟨j, h⟩).2 = round2 (running_price 100 1.0 halfRand (j + 1)))
      ∧ running_price 100 1.0 halfRand 0 = 100
      ∧ (∀ j : ℕ, running_price 100 1.0 halfRand (j + 1)
          = running_price 100 1.0 halfRand j
              * (1 + priceChange 1.0 (halfRand j) / 100))
      ∧ (∀ r : ℚ, 0 ≤ r → r < 1 →
          priceChange 1.0 r = (r - 0.5) * 2 * 1.0
          ∧ (-1 : ℚ) ≤ (r - 0.5) * 2 ∧ (r - 0.5) * 2 < 1) :=
  C8_generate_history 100 "Medium" 1.0 1 0 halfRand rfl (by norm_num)

/-- Witness for C9 amended at days -3 with volatility High. -/
theorem C9_negative_days_witness :
    generate_historical_data 50 "High" (-3) 5 halfRand = some [] :=
  (C9_negative_days 50 "High" (-3) 5 halfRand).2 1.4 rfl (by norm_num)

end Trade
